import Mathlib

/-!
Verification development for the Markov-chain weather predictor frontend.

The repository is a React/TypeScript frontend driving a Rust/WASM Markov
engine.  The numeric engine itself is not present in the repository sources;
only its declared interface (`useMarkovChain.ts`) and its callers are.  The
TypeScript components are embedded here shallowly: JavaScript numbers are
modelled by `JsNum` (a rational together with the IEEE special values),
component handlers become pure functions from an explicit state to a new
state plus the callbacks they fire, and the missing engine pieces that a
claim needs are modelled from the design document (each such definition is
marked `Modelled from the spec:`).
-/

/-- A JavaScript number: a rational value or one of the IEEE special values
`Infinity`, `-Infinity`, `NaN`.  (JavaScript's negative zero is identified
with zero; none of the embedded code distinguishes them.) -/
inductive JsNum where
  | num (q : ℚ)
  | posInf
  | negInf
  | nan
deriving DecidableEq, Repr

/-- JavaScript subtraction on `JsNum`. -/
def jsSub : JsNum → JsNum → JsNum
  | .nan, _ => .nan
  | _, .nan => .nan
  | .num a, .num b => .num (a - b)
  | .num _, .posInf => .negInf
  | .num _, .negInf => .posInf
  | .posInf, .num _ => .posInf
  | .negInf, .num _ => .negInf
  | .posInf, .negInf => .posInf
  | .negInf, .posInf => .negInf
  | .posInf, .posInf => .nan
  | .negInf, .negInf => .nan

/-- JavaScript division on `JsNum`: a nonzero rational divided by zero gives
a signed infinity, `0 / 0` gives `NaN`. -/
def jsDiv : JsNum → JsNum → JsNum
  | .nan, _ => .nan
  | _, .nan => .nan
  | .num a, .num b =>
      if b = 0 then
        if a > 0 then .posInf else if a < 0 then .negInf else .nan
      else .num (a / b)
  | .num _, .posInf => .num 0
  | .num _, .negInf => .num 0
  | .posInf, .num b => if b ≥ 0 then .posInf else .negInf
  | .negInf, .num b => if b ≥ 0 then .negInf else .posInf
  | .posInf, .posInf => .nan
  | .posInf, .negInf => .nan
  | .negInf, .posInf => .nan
  | .negInf, .negInf => .nan

/-- JavaScript `<` on `JsNum`: any comparison involving `NaN` is false. -/
def jsLt : JsNum → JsNum → Bool
  | .nan, _ => false
  | _, .nan => false
  | .posInf, _ => false
  | _, .posInf => true
  | .negInf, .negInf => false
  | .negInf, .num _ => true
  | .num _, .negInf => false
  | .num a, .num b => decide (a < b)

/-- JavaScript `>` on `JsNum`. -/
def jsGt (a b : JsNum) : Bool := jsLt b a

/-- JavaScript truthiness of a number: `0` and `NaN` are falsy, every other
number (including the infinities) is truthy. -/
def jsTruthy : JsNum → Bool
  | .num q => decide (q ≠ 0)
  | .nan => false
  | .posInf => true
  | .negInf => true

/-- The `Statistics` object consumed by the `StatisticsPanel` component:
per-state maps keyed by state name, with `averageStreaks` optional
(`averageStreaks?` in the TypeScript interface). -/
structure PanelStatistics where
  distribution : String → Option JsNum
  steadyState : String → Option JsNum
  averageStreaks : Option (String → Option JsNum)

/-- `calculateAverageStreak` from the `StatisticsPanel` component: if the
`averageStreaks` map supplies a truthy value for the state, return it;
otherwise read `statistics.steadyState[state] || 0` as `selfProb` and return
`selfProb > 0 ? 1 / (1 - selfProb) : 1`. -/
def calculateAverageStreak (statistics : PanelStatistics) (state : String) : JsNum :=
  let fallback : JsNum :=
    let selfProb : JsNum :=
      match statistics.steadyState state with
      | some v => if jsTruthy v then v else .num 0
      | none => .num 0
    if jsGt selfProb (.num 0) then jsDiv (.num 1) (jsSub (.num 1) selfProb)
    else .num 1
  match statistics.averageStreaks with
  | some streaks =>
      match streaks state with
      | some v => if jsTruthy v then v else fallback
      | none => fallback
  | none => fallback

/-- Modelled from the spec: the engine (absent from the sources) pairs a
transition matrix with the stationary vector used as the report's steady
state.  `dotColumn pi m j` is the `j`-th entry of the row-vector / matrix
product `pi . m`. -/
def dotColumn (pi : List ℚ) (m : List (List ℚ)) (j : Nat) : ℚ :=
  ((pi.zip m).map (fun pr => pr.1 * pr.2.getD j 0)).sum

/-- Modelled from the spec: the full row-vector / matrix product `pi . m`. -/
def vecMatMul (pi : List ℚ) (m : List (List ℚ)) : List ℚ :=
  (List.range m.length).map (dotColumn pi m)

/-- Modelled from the spec: `pi` is a stationary distribution of `m`
(`pi . m = pi`, entries nonnegative, summing to one). -/
def IsStationary (m : List (List ℚ)) (pi : List ℚ) : Prop :=
  vecMatMul pi m = pi ∧ pi.sum = 1 ∧ ∀ x ∈ pi, 0 ≤ x

instance (m : List (List ℚ)) (pi : List ℚ) : Decidable (IsStationary m pi) := by
  unfold IsStationary
  infer_instance

/-- The diagonal entry (self-transition probability) of row `i`. -/
def selfTransitionProb (m : List (List ℚ)) (i : Nat) : ℚ :=
  (m.getD i []).getD i 0

/-- Concrete statistics object for the run-length analysis: the steady state
of `c1Matrix` with no `averageStreaks` supplied. -/
def c1Stats : PanelStatistics :=
  { distribution := fun _ => none
    steadyState := fun s =>
      if s = "Sunny" then some (.num (1/3))
      else if s = "Rainy" then some (.num (2/3))
      else none
    averageStreaks := none }

/-- A two-state transition matrix over `[Sunny, Rainy]` whose `Sunny`
diagonal entry is exactly `1/2` and whose stationary distribution is
`(1/3, 2/3)`. -/
def c1Matrix : List (List ℚ) := [[1/2, 1/2], [1/4, 3/4]]

/-- Statistics object for an absorbing chain: the steady state of
`c2Matrix` (all mass on the absorbing `Sunny` state), no `averageStreaks`. -/
def c2Stats : PanelStatistics :=
  { distribution := fun _ => none
    steadyState := fun s =>
      if s = "Sunny" then some (.num 1)
      else if s = "Rainy" then some (.num 0)
      else none
    averageStreaks := none }

/-- A transition matrix in which `Sunny` is absorbing (self-probability 1),
with stationary distribution `(1, 0)`. -/
def c2Matrix : List (List ℚ) := [[1, 0], [1/2, 1/2]]

/-- Outcome of the `SimulationControl` submit handler: either the
`onSimulate` callback fires with the given arguments, or a validation error
is recorded and no simulation starts. -/
inductive SimControlOutcome where
  | simulate (days : JsNum) (initialState : String)
  | validationFailed (msg : String)
deriving DecidableEq, Repr

/-- `handleRunSimulation` from the `SimulationControl` component: the final
guard `days < 1 || days > 365` (JavaScript comparisons) records a validation
error; otherwise it clears the error and calls `onSimulate(days,
initialState)`. -/
def handleRunSimulation (days : JsNum) (initialState : String) : SimControlOutcome :=
  if jsLt days (.num 1) || jsGt days (.num 365) then
    .validationFailed "Days must be between 1 and 365"
  else
    .simulate days initialState

/-- Whether the outcome fires the `onSimulate` callback. -/
def simControlInvokesSimulate : SimControlOutcome → Bool
  | .simulate _ _ => true
  | .validationFailed _ => false

/-- `handleDaysChange` from the `SimulationControl` component, reduced to the
validation error it records for a parsed days value (`NaN` when the field
does not parse). -/
def handleDaysChangeError (value : JsNum) : Option String :=
  if value = .nan then some "Please enter a valid number"
  else if jsLt value (.num 1) then some "Days must be at least 1"
  else if jsGt value (.num 365) then some "Days cannot exceed 365"
  else none

/-- The hard-coded dropdown alphabet of the `SimulationControl` component. -/
def weatherStates : List String := ["Sunny", "Rainy", "Cloudy"]

/-- The field names of the `Statistics` interface declared in
`useMarkovChain.ts` (the get-statistics report). -/
def statisticsReportFields : List String :=
  ["steady_state", "distribution", "average_streaks"]

/-- The field names the `StatisticsPanel` component reads off the statistics
object it is given (its own `Statistics` interface). -/
def statisticsPanelReadFields : List String :=
  ["distribution", "steadyState", "averageStreaks"]

/-- The record keys of `StateProbabilities` in `useMarkovChain.ts`: a fixed
three-key record, not a map over the built state list. -/
def stateProbabilitiesKeys : List String := ["sunny", "rainy", "cloudy"]

/-- The key set of each per-state map in the statistics report, as a function
of the state list produced by matrix building: the `StateProbabilities` type
fixes the keys, so the result is constant. -/
def statisticsValueKeys (_states : List String) : List String :=
  stateProbabilitiesKeys

/-- The `MatrixData` payload returned by matrix building (flattened matrix,
ordered state list, dimensions). -/
structure MatrixData where
  matrix : List ℚ
  states : List String
  rows : Nat
  cols : Nat
deriving DecidableEq, Repr

/-- One simulated day as declared by the frontend interfaces (`timestamp` is
optional in the `WeatherTimeline` interface). -/
structure SimulationDay where
  day : Int
  state : String
  timestamp : Option Int
deriving DecidableEq, Repr

/-- The fixed per-state record used by the statistics report. -/
structure StateProbabilities where
  sunny : JsNum
  rainy : JsNum
  cloudy : JsNum
deriving DecidableEq, Repr

/-- The `Statistics` report declared in `useMarkovChain.ts`. -/
structure Statistics where
  steady_state : StateProbabilities
  distribution : StateProbabilities
  average_streaks : StateProbabilities
deriving DecidableEq, Repr

/-- The WASM engine as seen through its declared interface: each operation
may throw (modelled by `Except` with the thrown message). -/
structure EngineModule where
  processWeatherDataFn : String → Except String MatrixData
  runSimulationFn : JsNum → String → Except String (List SimulationDay)
  getStatisticsFn : Unit → Except String Statistics

/-- The `processData` wrapper from `useMarkovChain.ts`: rejects with
"WASM module not ready" when the module is absent or not ready, and only
then calls the engine.  The second component records whether the engine
function was invoked. -/
def processData (wasmModule : Option EngineModule) (isReady : Bool)
    (jsonData : String) : Except String MatrixData × Bool :=
  match wasmModule, isReady with
  | some m, true => (m.processWeatherDataFn jsonData, true)
  | some _, false => (.error "WASM module not ready", false)
  | none, _ => (.error "WASM module not ready", false)

/-- The `runSimulation` wrapper from `useMarkovChain.ts`: its only inputs
besides the module context are `days` and `initialState` — no seed. -/
def runSimulation (wasmModule : Option EngineModule) (isReady : Bool)
    (days : JsNum) (initialState : String) :
    Except String (List SimulationDay) × Bool :=
  match wasmModule, isReady with
  | some m, true => (m.runSimulationFn days initialState, true)
  | some _, false => (.error "WASM module not ready", false)
  | none, _ => (.error "WASM module not ready", false)

/-- The `getStatistics` wrapper from `useMarkovChain.ts`. -/
def getStatistics (wasmModule : Option EngineModule) (isReady : Bool) :
    Except String Statistics × Bool :=
  match wasmModule, isReady with
  | some m, true => (m.getStatisticsFn (), true)
  | some _, false => (.error "WASM module not ready", false)
  | none, _ => (.error "WASM module not ready", false)

/-- The `parameters` record stored with a simulation result in `App`. -/
structure SimulationParameters where
  days : JsNum
  initialState : String
  city : String
deriving DecidableEq, Repr

/-- The `SimulationResults` state slice of `App`. -/
structure SimulationResults where
  predictions : List SimulationDay
  parameters : SimulationParameters
deriving DecidableEq, Repr

/-- The global state of the `App` component. -/
structure AppState where
  selectedCity : String
  historicalData : Option String
  transitionMatrix : Option MatrixData
  simulationResults : Option SimulationResults
  isLoading : Bool
  error : Option String
deriving DecidableEq, Repr

/-- `handleCityChange` from `App`: select the city and reset the derived
state (`isLoading` is not touched). -/
def handleCityChange (st : AppState) (city : String) : AppState :=
  { st with
    selectedCity := city
    historicalData := none
    transitionMatrix := none
    simulationResults := none
    error := none }

/-- `handleSimulation` from `App`, as the net state after the call given the
engine outcome: without a matrix it records an error and never calls the
engine; on success it stores the predictions with their parameters; on
rejection it stores the error message and leaves `simulationResults`
untouched (`isLoading` is reset by the `finally` block). -/
def handleSimulation (st : AppState) (days : JsNum) (initialState : String)
    (engineResult : Except String (List SimulationDay)) : AppState :=
  match st.transitionMatrix with
  | none => { st with error := some "Please fetch weather data first" }
  | some _ =>
    match engineResult with
    | .ok predictions =>
        { st with
          isLoading := false
          error := none
          simulationResults := some
            { predictions := predictions
              parameters :=
                { days := days, initialState := initialState, city := st.selectedCity } } }
    | .error e => { st with isLoading := false, error := some e }

/-- The local state of the `DataFetcher` component. -/
structure DataFetcherState where
  isProcessing : Bool
  processingError : Option String
deriving DecidableEq, Repr

/-- `handleProcessData` from `DataFetcher`, as the net state plus the
argument of the `onDataFetched` callback (`none` when it is not fired): an
early return when no data is present; on success the matrix is handed to
`onDataFetched`; on rejection the error message is recorded and the callback
never fires (`isProcessing` is reset by the `finally` block). -/
def handleProcessData (st : DataFetcherState) (dataPresent : Bool)
    (engineResult : Except String MatrixData) :
    DataFetcherState × Option MatrixData :=
  if dataPresent then
    match engineResult with
    | .ok matrix => ({ isProcessing := false, processingError := none }, some matrix)
    | .error e => ({ isProcessing := false, processingError := some e }, none)
  else
    (st, none)

/-- The summary count of the `WeatherTimeline` component:
`simulationData.filter(d => d.state === state).length`. -/
def timelineSummaryCount (simulationData : List SimulationDay) (state : String) : Nat :=
  (simulationData.filter (fun d => d.state = state)).length

/-- The summary percentage of the `WeatherTimeline` component:
`count / simulationData.length * 100` (the `toFixed(1)` rendering is not
modelled). -/
def timelineSummaryPercentage (simulationData : List SimulationDay) (state : String) : ℚ :=
  ((timelineSummaryCount simulationData state : ℚ) / (simulationData.length : ℚ)) * 100

/-- The fixed state list the timeline summary enumerates
(`Object.keys(stateColors)`). -/
def stateColorsKeys : List String := ["Sunny", "Rainy", "Cloudy"]

/-- Modelled from the spec: the empirical frequency of a state in a
trajectory, normalized by trajectory length. -/
def empiricalFrequency (traj : List String) (s : String) : ℚ :=
  (traj.count s : ℚ) / (traj.length : ℚ)

/-- Modelled from the spec: inverse-CDF sampling — walk the row's cumulative
probabilities and select the first index whose cumulative probability
reaches the drawn value `r`.  (The Rust engine is absent from the sources;
this follows the design document's sampling procedure.) -/
def sampleIndexAux : List ℚ → ℚ → ℚ → Nat → Nat
  | [], _, _, i => i
  | p :: rest, acc, r, i =>
      if r ≤ acc + p then i else sampleIndexAux rest (acc + p) r (i + 1)

/-- Modelled from the spec: the sampled next-state index for a matrix row and
a uniform draw `r`. -/
def sampleIndex (row : List ℚ) (r : ℚ) : Nat :=
  sampleIndexAux row 0 r 0

/-- Modelled from the spec: the sampled days after day 0.  `current` is the
current state index, `k` the day index of the next sampled day, and the last
argument the number of days still to sample; day `k` consumes the draw
`entropy k`. -/
def simulateFrom (matrix : List (List ℚ)) (entropy : Nat → ℚ) :
    Nat → Nat → Nat → List Nat
  | _, _, 0 => []
  | current, k, n + 1 =>
      let next := sampleIndex (matrix.getD current []) (entropy k)
      next :: simulateFrom matrix entropy next (k + 1) n

/-- Modelled from the spec: the trajectory simulator (absent Rust engine).
Day 0 is the starting state, not sampled; each later day is drawn from the
current state's matrix row by inverse-CDF sampling against the entropy
stream.  The public interface passes no seed, so the entropy stream is not a
function of the call's arguments. -/
def simulateTrajectory (matrix : List (List ℚ)) (start : Nat) (days : Nat)
    (entropy : Nat → ℚ) : List Nat :=
  match days with
  | 0 => []
  | n + 1 => start :: simulateFrom matrix entropy start 1 n

/-- Example trajectory used to instantiate the timeline-summary theorem. -/
def c7ExampleData : List SimulationDay :=
  [{ day := 0, state := "Sunny", timestamp := none },
   { day := 1, state := "Rainy", timestamp := none },
   { day := 2, state := "Sunny", timestamp := none }]

/-- Example matrix payload used to instantiate the error-path theorem. -/
def c8ExampleMatrix : MatrixData :=
  { matrix := [1], states := ["Sunny"], rows := 1, cols := 1 }

/-- Example application state holding a built matrix. -/
def c8ExampleApp : AppState :=
  { selectedCity := "Mumbai"
    historicalData := none
    transitionMatrix := some c8ExampleMatrix
    simulationResults := some
      { predictions := []
        parameters := { days := .num 7, initialState := "Sunny", city := "Mumbai" } }
    isLoading := true
    error := none }

/-- Auxiliary: `simulateFrom` only depends on the entropy draws it actually
consumes, namely the day indices `k, …, k + n - 1`. -/
theorem simulateFrom_congr (matrix : List (List ℚ)) (e1 e2 : Nat → ℚ) :
    ∀ (n current k : Nat), (∀ i, k ≤ i → i < k + n → e1 i = e2 i) →
    simulateFrom matrix e1 current k n = simulateFrom matrix e2 current k n := by
  intro n
  induction n with
  | zero => intro current k _; rfl
  | succ n ih =>
      intro current k h
      have hk : e1 k = e2 k := h k le_rfl (by omega)
      simp only [simulateFrom, hk]
      exact congrArg _ (ih _ (k + 1) (fun i h1 h2 => h i (by omega) (by omega)))

/-- Auxiliary: counting a state in the projected trajectory equals the
length of the filtered trajectory, the form computed by the timeline. -/
theorem count_map_state (l : List SimulationDay) (s : String) :
    (l.map SimulationDay.state).count s = (l.filter (fun d => d.state = s)).length := by
  induction l with
  | nil => rfl
  | cons a t ih =>
      simp only [List.map_cons, List.count_cons, List.filter_cons]
      by_cases h : a.state = s
      · simp [h, ih]
      · simp [h, ih]

/-- Claim C1: the claim says the fallback run-length for a state is
`1 / (1 - p_self)` with `p_self` the matrix diagonal entry, giving `2.0`
when `p_self = 1/2`.  The code instead reads `statistics.steadyState[state]`
(despite its own comment "Estimate based on self-transition probability").
Concretely: `c1Matrix` has `Sunny` diagonal exactly `1/2` and stationary
distribution `(1/3, 2/3)`; with no `averageStreaks` supplied the code
returns `1 / (1 - 1/3) = 3/2`, not the claimed `1 / (1 - 1/2) = 2`. -/
theorem c1_averageStreak_reads_steady_state_not_diagonal :
    IsStationary c1Matrix [1/3, 2/3] ∧
    selfTransitionProb c1Matrix 0 = 1/2 ∧
    calculateAverageStreak c1Stats "Sunny" = JsNum.num (3/2) ∧
    calculateAverageStreak c1Stats "Sunny" ≠
      JsNum.num (1 / (1 - selfTransitionProb c1Matrix 0)) := by
  refine ⟨?_, ?_, ?_, ?_⟩
  · unfold IsStationary c1Matrix vecMatMul dotColumn
    norm_num [List.range_succ]
  · unfold selfTransitionProb c1Matrix
    norm_num
  · unfold calculateAverageStreak c1Stats
    norm_num [jsTruthy, jsGt, jsLt, jsSub, jsDiv]
  · unfold calculateAverageStreak c1Stats selfTransitionProb c1Matrix
    norm_num [jsTruthy, jsGt, jsLt, jsSub, jsDiv]

/-- Claim C2: the claim says an absorbing state's run-length is reported as
a distinct "unbounded" sentinel, never a raw `Infinity` or `NaN`.  The code
has no such branch: in `c2Matrix` the `Sunny` state is absorbing
(diagonal 1) with stationary distribution `(1, 0)`, and the fallback
computes `1 / (1 - 1)`, the IEEE `Infinity`, passed through unflagged. -/
theorem c2_absorbing_state_propagates_infinity :
    IsStationary c2Matrix [1, 0] ∧
    selfTransitionProb c2Matrix 0 = 1 ∧
    calculateAverageStreak c2Stats "Sunny" = JsNum.posInf := by
  refine ⟨?_, ?_, ?_⟩
  · unfold IsStationary c2Matrix vecMatMul dotColumn
    norm_num [List.range_succ]
  · unfold selfTransitionProb c2Matrix
    norm_num
  · unfold calculateAverageStreak c2Stats
    norm_num [jsTruthy, jsGt, jsLt, jsSub, jsDiv]

/-- Claim C3, counterexample: the public simulate operation passes no seed,
so the entropy stream is not fixed by the call's arguments; two invocations
with the same matrix, horizon and initial state but different entropy
realizations return different trajectories. -/
theorem c3_same_args_different_entropy_differ :
    simulateTrajectory [[1/2, 1/2], [1/2, 1/2]] 0 2 (fun _ => 0) ≠
      simulateTrajectory [[1/2, 1/2], [1/2, 1/2]] 0 2 (fun _ => 3/4) := by
  norm_num [simulateTrajectory, simulateFrom, sampleIndex, sampleIndexAux]

/-- Claim C3, amended: the simulator is a deterministic function of the
horizon, the initial state and the random draws it consumes — two runs whose
entropy streams agree up to the horizon produce identical trajectories; only
the absence of a seed parameter in the public interface prevents the caller
from fixing those draws. -/
theorem c3_trajectory_deterministic_in_entropy (matrix : List (List ℚ))
    (start days : Nat) (e1 e2 : Nat → ℚ) (h : ∀ i < days, e1 i = e2 i) :
    simulateTrajectory matrix start days e1 = simulateTrajectory matrix start days e2 := by
  cases days with
  | zero => rfl
  | succ n =>
      simp only [simulateTrajectory]
      exact congrArg _ (simulateFrom_congr matrix e1 e2 n start 1
        (fun i _ h2 => h i (by omega)))

/-- Claim C3, witness for the amended theorem at a concrete input. -/
theorem c3_trajectory_deterministic_in_entropy_witness :
    simulateTrajectory [[1]] 0 3 (fun _ => 0) =
      simulateTrajectory [[1]] 0 3 (fun i => i * 0) :=
  c3_trajectory_deterministic_in_entropy [[1]] 0 3 (fun _ => 0) (fun i => i * 0)
    (by intro i _; simp)

/-- Claim C4: the get-statistics report declares exactly the fields
`steady_state`, `distribution`, `average_streaks`, but the consuming
`StatisticsPanel` reads `steadyState` and `averageStreaks` — names absent
from the report. -/
theorem c4_panel_reads_field_names_absent_from_report :
    statisticsReportFields = ["steady_state", "distribution", "average_streaks"] ∧
    "steadyState" ∈ statisticsPanelReadFields ∧
    "averageStreaks" ∈ statisticsPanelReadFields ∧
    "steadyState" ∉ statisticsReportFields ∧
    "averageStreaks" ∉ statisticsReportFields := by
  refine ⟨rfl, ?_, ?_, ?_, ?_⟩ <;> decide

/-- Claim C5, counterexample: the final guard `days < 1 || days > 365` uses
JavaScript comparisons, which are false on `NaN`; a `NaN` days value
therefore passes the guard and `onSimulate` is invoked with `NaN`,
contradicting the claim that the callback never fires outside
`1 ≤ days ≤ 365`. -/
theorem c5_nan_days_invokes_simulate :
    simControlInvokesSimulate (handleRunSimulation JsNum.nan "Sunny") = true ∧
    handleRunSimulation JsNum.nan "Sunny" = SimControlOutcome.simulate JsNum.nan "Sunny" :=
  ⟨rfl, rfl⟩

/-- Claim C5, amended: for a numeric (non-`NaN`) days value the handler fires
`onSimulate` exactly when `1 ≤ days ≤ 365`, recording a validation error
otherwise; a `NaN` value passes this guard and is instead flagged earlier by
`handleDaysChange`, whose validation error disables the run button. -/
theorem c5_numeric_days_guard_iff (q : ℚ) (s : String) :
    (simControlInvokesSimulate (handleRunSimulation (JsNum.num q) s) = true ↔
      1 ≤ q ∧ q ≤ 365) ∧
    handleDaysChangeError JsNum.nan = some "Please enter a valid number" := by
  constructor
  · unfold handleRunSimulation simControlInvokesSimulate jsGt jsLt
    by_cases h1 : q < 1
    · simp [h1]
    · by_cases h2 : (365 : ℚ) < q
      · simp [h1, h2]
      · simp [h1, h2]
        constructor <;> linarith
  · rfl

/-- Claim C6, counterexample: the statistics report's per-state maps are
keyed by the fixed `StateProbabilities` record, so for a caller alphabet such as
`[Foggy, Snowy]` the report keys are still `sunny, rainy, cloudy` — the
interface is not generic over the built state list. -/
theorem c6_report_keys_ignore_caller_alphabet :
    statisticsValueKeys ["Foggy", "Snowy"] ≠ ["Foggy", "Snowy"] := by
  decide

/-- Claim C6, amended: the simulation operation does accept an arbitrary
state-name string and forwards it unchanged to the engine, but the
statistics report hard-codes the keys `sunny, rainy, cloudy` regardless of
the built state list, and the simulation control hard-codes the alphabet
`Sunny, Rainy, Cloudy`. -/
theorem c6_fixed_alphabet_interfaces (states : List String) (m : EngineModule)
    (days : JsNum) (initialState : String) :
    statisticsValueKeys states = ["sunny", "rainy", "cloudy"] ∧
    (runSimulation (some m) true days initialState).1 = m.runSimulationFn days initialState ∧
    weatherStates = ["Sunny", "Rainy", "Cloudy"] :=
  ⟨rfl, rfl, rfl⟩

/-- Claim C7: on a non-empty trajectory the timeline summary's count for a
state is the number of trajectory entries in that state, and its percentage
is that count normalized by the trajectory length, times 100 — the empirical
frequency distribution. -/
theorem c7_timeline_summary_is_empirical_distribution
    (data : List SimulationDay) (s : String) (h : data ≠ []) :
    timelineSummaryCount data s = (data.map SimulationDay.state).count s ∧
    timelineSummaryPercentage data s =
      empiricalFrequency (data.map SimulationDay.state) s * 100 := by
  constructor
  · rw [count_map_state]; rfl
  · unfold timelineSummaryPercentage empiricalFrequency timelineSummaryCount
    rw [count_map_state, List.length_map]

/-- Claim C7, witness at a concrete three-day trajectory. -/
theorem c7_timeline_summary_is_empirical_distribution_witness :
    c7ExampleData ≠ [] ∧
    (timelineSummaryCount c7ExampleData "Sunny" =
        (c7ExampleData.map SimulationDay.state).count "Sunny" ∧
      timelineSummaryPercentage c7ExampleData "Sunny" =
        empiricalFrequency (c7ExampleData.map SimulationDay.state) "Sunny" * 100) :=
  ⟨by simp [c7ExampleData],
   c7_timeline_summary_is_empirical_distribution c7ExampleData "Sunny"
     (by simp [c7ExampleData])⟩

/-- Claim C8: when a wrapped engine call rejects, the caller records the
error and leaves prior results unchanged — `handleProcessData` sets
`processingError` and never fires `onDataFetched`, and `handleSimulation`
(with a matrix present) sets the error message and leaves
`simulationResults` exactly as it was. -/
theorem c8_engine_rejection_preserves_results (dst : DataFetcherState)
    (e : String) (st : AppState) (days : JsNum) (init : String)
    (m : MatrixData) (hm : st.transitionMatrix = some m) :
    (handleProcessData dst true (.error e)).2 = none ∧
    (handleProcessData dst true (.error e)).1.processingError = some e ∧
    (handleSimulation st days init (.error e)).error = some e ∧
    (handleSimulation st days init (.error e)).simulationResults = st.simulationResults := by
  refine ⟨rfl, rfl, ?_, ?_⟩ <;> simp [handleSimulation, hm]

/-- Claim C8, witness at a concrete app state holding a matrix and an
earlier simulation result. -/
theorem c8_engine_rejection_preserves_results_witness :
    c8ExampleApp.transitionMatrix = some c8ExampleMatrix ∧
    ((handleProcessData ⟨false, none⟩ true (.error "boom")).2 = none ∧
      (handleProcessData ⟨false, none⟩ true (.error "boom")).1.processingError = some "boom" ∧
      (handleSimulation c8ExampleApp (.num 30) "Sunny" (.error "boom")).error = some "boom" ∧
      (handleSimulation c8ExampleApp (.num 30) "Sunny" (.error "boom")).simulationResults =
        c8ExampleApp.simulationResults) :=
  ⟨rfl, c8_engine_rejection_preserves_results ⟨false, none⟩ "boom" c8ExampleApp
    (.num 30) "Sunny" c8ExampleMatrix rfl⟩

/-- Claim C9: whenever the WASM module is absent or not ready, each wrapper
rejects with "WASM module not ready" and the engine function is not invoked;
conversely the engine is only ever invoked with a loaded, ready module. -/
theorem c9_wrappers_reject_when_module_not_ready
    (wasmModule : Option EngineModule) (isReady : Bool) (jsonData : String)
    (days : JsNum) (initialState : String)
    (h : wasmModule = none ∨ isReady = false) :
    processData wasmModule isReady jsonData = (.error "WASM module not ready", false) ∧
    runSimulation wasmModule isReady days initialState =
      (.error "WASM module not ready", false) ∧
    getStatistics wasmModule isReady = (.error "WASM module not ready", false) ∧
    (∀ (m2 : Option EngineModule) (r2 : Bool),
      (processData m2 r2 jsonData).2 = true → m2 ≠ none ∧ r2 = true) := by
  refine ⟨?_, ?_, ?_, ?_⟩
  · rcases h with h | h
    · subst h; cases isReady <;> rfl
    · subst h; cases wasmModule <;> rfl
  · rcases h with h | h
    · subst h; cases isReady <;> rfl
    · subst h; cases wasmModule <;> rfl
  · rcases h with h | h
    · subst h; cases isReady <;> rfl
    · subst h; cases wasmModule <;> rfl
  · intro m2 r2 hinv
    cases m2 with
    | none => cases r2 <;> simp [processData] at hinv
    | some mm =>
        cases r2 with
        | false => simp [processData] at hinv
        | true => exact ⟨by simp, rfl⟩

/-- Claim C9, witness with no module loaded. -/
theorem c9_wrappers_reject_when_module_not_ready_witness :
    ((none : Option EngineModule) = none ∨ true = false) ∧
    (processData none true "payload" = (.error "WASM module not ready", false) ∧
      runSimulation none true (.num 30) "Sunny" =
        (.error "WASM module not ready", false) ∧
      getStatistics none true = (.error "WASM module not ready", false) ∧
      (∀ (m2 : Option EngineModule) (r2 : Bool),
        (processData m2 r2 "payload").2 = true → m2 ≠ none ∧ r2 = true)) :=
  ⟨Or.inl rfl,
   c9_wrappers_reject_when_module_not_ready none true "payload" (.num 30) "Sunny"
     (Or.inl rfl)⟩

/-- Claim C10: `handleCityChange` sets the selected city and resets
`historicalData`, `transitionMatrix`, `simulationResults` and `error` to
null, leaving `isLoading` unchanged. -/
theorem c10_city_change_resets_derived_state (st : AppState) (c : String) :
    (handleCityChange st c).selectedCity = c ∧
    (handleCityChange st c).historicalData = none ∧
    (handleCityChange st c).transitionMatrix = none ∧
    (handleCityChange st c).simulationResults = none ∧
    (handleCityChange st c).error = none ∧
    (handleCityChange st c).isLoading = st.isLoading :=
  ⟨rfl, rfl, rfl, rfl, rfl, rfl⟩
